import Mathlib

/-!
Shallow embedding of `ticktock.py`, a timing side-channel measurement script.
The script parses CLI arguments (lines 32-39), runs a sampling loop of
`attempts` trials (lines 92-108) issuing one valid-payload and one
invalid-payload HTTP request per trial, extracts a rounded five-stage timing
record per request (lines 73-90), derives per-record ratio signals
(lines 111-112), logs the two class means (lines 114-115) and hands the data
to the plotting library (lines 118-135).

Durations are modelled as exact rationals.  Network outcomes are an oracle
`Transport` mapping a trial index and a payload class to either a raw timing
or a request error; exceptions are modelled with `Except` / `Option`.
-/

namespace TickTock

/-- Python `round` to an integer: round half to even (banker's rounding),
modelled on exact rationals. -/
def roundHalfEven (x : ℚ) : ℤ :=
  if x - ⌊x⌋ < 1/2 then ⌊x⌋
  else if 1/2 < x - ⌊x⌋ then ⌊x⌋ + 1
  else if ⌊x⌋ % 2 = 0 then ⌊x⌋ else ⌊x⌋ + 1

/-- Python `round(x, p)`: round to `p` decimal digits (half to even). -/
def pyRound (x : ℚ) (p : ℤ) : ℚ :=
  (roundHalfEven (x * 10 ^ p) : ℚ) / 10 ^ p

/-- Raw staged timings reported by the transport for one request, in seconds:
the values `curl.getinfo` returns for `NAMELOOKUP_TIME`, `CONNECT_TIME`,
`APPCONNECT_TIME`, `STARTTRANSFER_TIME`, `TOTAL_TIME` (lines 83-87). -/
structure RawTiming where
  namelookup_time : ℚ
  connect_time : ℚ
  appconnect_time : ℚ
  starttransfer_time : ℚ
  total_time : ℚ
deriving DecidableEq

/-- The dict built by `extract_timings` (lines 82-88): the five staged
latencies of one request, each rounded to the configured precision.  Field
names follow the source's dict keys (including its `AppConnectionTine` typo). -/
structure TimingRecord where
  DNSLookup : ℚ
  TCPConnectionTime : ℚ
  AppConnectionTine : ℚ
  StartTransferTime : ℚ
  TotalTime : ℚ
deriving DecidableEq

/-- `extract_timings` (lines 73-90): round each raw stage timing to
`precision` decimal digits. -/
def extract_timings (request : RawTiming) (precision : ℤ) : TimingRecord where
  DNSLookup := pyRound request.namelookup_time precision
  TCPConnectionTime := pyRound request.connect_time precision
  AppConnectionTine := pyRound request.appconnect_time precision
  StartTransferTime := pyRound request.starttransfer_time precision
  TotalTime := pyRound request.total_time precision

/-- Which credential payload a request carries: `valid_post` or `invalid_post`. -/
inductive Class
  | valid
  | invalid
deriving DecidableEq

/-- Errors a single request can raise inside `send_request` /
`curl.perform()`: connection, DNS or timeout failures, or a malformed
response at the transport layer. -/
inductive RequestError
  | transportError
  | protocolError
deriving DecidableEq

/-- Unhandled exceptions that terminate the script: a request failure,
Python's division-by-zero on lines 111-112, or `statistics.mean` on an
empty list (lines 114-115). -/
inductive RunError
  | request : RequestError → RunError
  | zeroDivisionError
  | statisticsError
deriving DecidableEq

/-- Observable events of the sampling loop, in program order: a request to
the target being issued and completing, and a record being appended to one
of the two series in `metrics`. -/
inductive Event
  | request : ℕ → Class → Event
  | append : ℕ → Class → Event
deriving DecidableEq

/-- The network oracle: the outcome `send_request` would observe for the
request of the given trial index and payload class. -/
abbrev Transport := ℕ → Class → Except RequestError RawTiming

/-- State accumulated by the sampling loop: the ordered event trace and the
two series `metrics['valid']` and `metrics['invalid']` (line 92). -/
structure LoopState where
  events : List Event
  valid : List TimingRecord
  invalid : List TimingRecord
deriving DecidableEq

/-- The sampling loop `for i in range(attempts)` (lines 94-108).  Each trial
issues the valid-payload request, then the invalid-payload request, and only
then appends both records (lines 97-108); a raised request error aborts the
loop with the state reached so far.  Returns the final state and the error
that aborted the run, if any. -/
def sampleLoop (t : Transport) (precision : ℤ) : ℕ → LoopState × Option RequestError
  | 0 => (⟨[], [], []⟩, none)
  | n + 1 =>
    match sampleLoop t precision n with
    | (st, some e) => (st, some e)
    | (st, none) =>
      match t n Class.valid with
      | .error e => ({ st with events := st.events ++ [.request n .valid] }, some e)
      | .ok valid_handle =>
        match t n Class.invalid with
        | .error e =>
            ({ st with events := st.events ++ [.request n .valid, .request n .invalid] },
             some e)
        | .ok invalid_handle =>
            (⟨st.events ++ [.request n .valid, .request n .invalid,
                            .append n .valid, .append n .invalid],
              st.valid ++ [extract_timings valid_handle precision],
              st.invalid ++ [extract_timings invalid_handle precision]⟩,
             none)

/-- The list comprehension of lines 111-112:
`[metric['StartTransferTime'] / metric['TotalTime'] for metric in series]`.
Python raises `ZeroDivisionError` at the first record whose `TotalTime`
is zero; there is no guard in the source. -/
def y_axis : List TimingRecord → Except RunError (List ℚ)
  | [] => .ok []
  | metric :: rest =>
    if metric.TotalTime = 0 then .error RunError.zeroDivisionError
    else
      match y_axis rest with
      | .error e => .error e
      | .ok ys => .ok (metric.StartTransferTime / metric.TotalTime :: ys)

/-- `statistics.mean` (lines 114-115): arithmetic mean, raising
`StatisticsError` on an empty list. -/
def statistics_mean (data : List ℚ) : Except RunError ℚ :=
  if data.isEmpty then .error RunError.statisticsError
  else .ok (data.sum / data.length)

/-- The parsed command-line arguments (lines 32-39). -/
structure Args where
  target : Option String
  valid_post : Option String
  invalid_post : Option String
  attempts : ℤ
  time_delay : ℤ
  precision : ℤ
deriving DecidableEq

/-- `argparse` parsing as declared on lines 32-39: every option is declared
without `required=True`, so a missing `--target`, `--valid_post` or
`--invalid_post` parses to `None` rather than raising a usage error, and the
numeric options fall back to their declared defaults (50, 50, 3).  No value
is rejected: `parse_args` always succeeds. -/
def parse_args (target valid_post invalid_post : Option String)
    (attempts time_delay precision : Option ℤ) : Except RunError Args :=
  .ok { target := target, valid_post := valid_post, invalid_post := invalid_post,
        attempts := attempts.getD 50, time_delay := time_delay.getD 50,
        precision := precision.getD 3 }

/-- The data the script computes after the loop and hands to the log and to
the plotting library: the two signal series (lines 111-112), the two logged
means (lines 114-115) and the x axis `range(1, attempts + 1)` (line 118). -/
structure Report where
  y_axis_valid : List ℚ
  y_axis_invalid : List ℚ
  mean_valid : ℚ
  mean_invalid : ℚ
  x_axis : List ℕ
deriving DecidableEq

/-- The whole script after argument parsing (lines 92-135): run the sampling
loop; on a request failure the exception propagates and nothing further runs;
otherwise derive the two signal series, compute and log the two means, and
assemble the data handed to the plotting library.  `range(args.attempts)`
on a non-positive `attempts` is empty, hence `Int.toNat`. -/
def runMain (t : Transport) (args : Args) : Except RunError Report :=
  match sampleLoop t args.precision args.attempts.toNat with
  | (_, some e) => .error (RunError.request e)
  | (st, none) => do
    let yv ← y_axis st.valid
    let yiv ← y_axis st.invalid
    let mv ← statistics_mean yv
    let miv ← statistics_mean yiv
    .ok { y_axis_valid := yv, y_axis_invalid := yiv, mean_valid := mv,
          mean_invalid := miv, x_axis := List.range' 1 args.attempts.toNat }

/-- Whether an `Except` value is an error. -/
def isError {ε α : Type} : Except ε α → Bool
  | .error _ => true
  | .ok _ => false

/-- The event trace of a complete `N`-trial run: per trial, valid request,
invalid request, then the two appends. -/
def trialTrace (N : ℕ) : List Event :=
  (List.range N).flatMap fun i =>
    [.request i .valid, .request i .invalid, .append i .valid, .append i .invalid]

/-- Position of the first occurrence of an event in a trace. -/
def eventIndex (l : List Event) (e : Event) : ℕ :=
  l.findIdx fun x => decide (x = e)

/-- A deterministic transport whose every request succeeds with a fixed
timing (total 100ms, time to first byte 80ms). -/
def tOk : Transport := fun _ _ => .ok ⟨1/100, 2/100, 3/100, 2/25, 1/10⟩

/-- A transport raising a connection-refused `TransportError` on trial 3
(index 2) and succeeding on every other trial. -/
def tErr : Transport := fun i _ =>
  if i = 2 then .error RequestError.transportError else .ok ⟨1/100, 2/100, 3/100, 2/25, 1/10⟩

/-- The deterministic mock transport of the end-to-end scenario: the valid
class always answers with total 100ms and time to first byte 80ms, the
invalid class with total 100ms and time to first byte 20ms (in seconds:
2/25, 1/50 and 1/10). -/
def t7 : Transport := fun _ c =>
  match c with
  | .valid => .ok ⟨1/100, 2/100, 3/100, 2/25, 1/10⟩
  | .invalid => .ok ⟨1/100, 2/100, 3/100, 1/50, 1/10⟩

end TickTock

namespace TickTock

/-! Helper lemmas about rounding. -/

theorem roundHalfEven_ge_floor (x : ℚ) : ⌊x⌋ ≤ roundHalfEven x := by
  unfold roundHalfEven; split_ifs <;> omega

theorem roundHalfEven_le_floor_add_one (x : ℚ) : roundHalfEven x ≤ ⌊x⌋ + 1 := by
  unfold roundHalfEven; split_ifs <;> omega

theorem roundHalfEven_mono {x y : ℚ} (h : x ≤ y) : roundHalfEven x ≤ roundHalfEven y := by
  rcases lt_or_eq_of_le (Int.floor_le_floor h) with hf | hf
  · calc roundHalfEven x ≤ ⌊x⌋ + 1 := roundHalfEven_le_floor_add_one x
      _ ≤ ⌊y⌋ := by omega
      _ ≤ roundHalfEven y := roundHalfEven_ge_floor y
  · unfold roundHalfEven
    rw [← hf]
    split_ifs <;> first | omega | (exfalso; linarith)

theorem pyRound_mono (p : ℤ) {x y : ℚ} (h : x ≤ y) : pyRound x p ≤ pyRound y p := by
  have hp : (0:ℚ) < 10 ^ p := by positivity
  have h1 : roundHalfEven (x * 10 ^ p) ≤ roundHalfEven (y * 10 ^ p) :=
    roundHalfEven_mono (mul_le_mul_of_nonneg_right h hp.le)
  have h2 : ((roundHalfEven (x * 10 ^ p) : ℚ)) ≤ (roundHalfEven (y * 10 ^ p) : ℚ) := by
    exact_mod_cast h1
  unfold pyRound
  exact div_le_div_of_nonneg_right h2 hp.le

theorem pyRound_zero (p : ℤ) : pyRound 0 p = 0 := by
  unfold pyRound roundHalfEven
  norm_num

theorem pyRound_nonneg (p : ℤ) {x : ℚ} (h : 0 ≤ x) : 0 ≤ pyRound x p := by
  have h2 := pyRound_mono p h
  rwa [pyRound_zero] at h2

/-! Helper lemmas about the sampling loop, the derive step and the mean. -/

theorem sampleLoop_len_eq (t : Transport) (p : ℤ) (N : ℕ) :
    ((sampleLoop t p N).1).valid.length = ((sampleLoop t p N).1).invalid.length := by
  induction N with
  | zero => rfl
  | succ n ih =>
    rcases hprev : sampleLoop t p n with ⟨st, err⟩
    rw [hprev] at ih
    cases err with
    | some e => simpa [sampleLoop, hprev] using ih
    | none =>
      rcases hv : t n Class.valid with e | vr
      · simpa [sampleLoop, hprev, hv] using ih
      · rcases hiv : t n Class.invalid with e | ir
        · simpa [sampleLoop, hprev, hv, hiv] using ih
        · simp [sampleLoop, hprev, hv, hiv, ih]

theorem sampleLoop_none_spec (t : Transport) (p : ℤ) (N : ℕ)
    (h : (sampleLoop t p N).2 = none) :
    ((sampleLoop t p N).1).valid.length = N ∧
    ((sampleLoop t p N).1).invalid.length = N ∧
    ((sampleLoop t p N).1).events = trialTrace N ∧
    ∀ i, i < N → ∃ vr ir, t i Class.valid = .ok vr ∧ t i Class.invalid = .ok ir ∧
      ((sampleLoop t p N).1).valid[i]? = some (extract_timings vr p) ∧
      ((sampleLoop t p N).1).invalid[i]? = some (extract_timings ir p) := by
  induction N with
  | zero =>
    refine ⟨rfl, rfl, rfl, ?_⟩
    intro i hi
    omega
  | succ n ih =>
    rcases hprev : sampleLoop t p n with ⟨st, err⟩
    cases err with
    | some e =>
      exfalso
      simp [sampleLoop, hprev] at h
    | none =>
      have ihs := ih (by rw [hprev])
      rw [hprev] at ihs
      dsimp only at ihs
      obtain ⟨hl1, hl2, hev, hidx⟩ := ihs
      rcases hv : t n Class.valid with e | vr
      · exfalso; simp [sampleLoop, hprev, hv] at h
      · rcases hiv : t n Class.invalid with e | ir
        · exfalso; simp [sampleLoop, hprev, hv, hiv] at h
        · have heq : sampleLoop t p (n + 1) =
              (⟨st.events ++ [.request n .valid, .request n .invalid,
                              .append n .valid, .append n .invalid],
                st.valid ++ [extract_timings vr p],
                st.invalid ++ [extract_timings ir p]⟩, none) := by
            simp [sampleLoop, hprev, hv, hiv]
          rw [heq]
          dsimp only
          refine ⟨by simp [hl1], by simp [hl2], ?_, ?_⟩
          · simp only [hev, trialTrace, List.range_succ, List.flatMap_append]
            simp
          · intro i hi
            rcases Nat.lt_succ_iff_lt_or_eq.mp hi with hlt | heqi
            · obtain ⟨vr2, ir2, h1, h2, h3, h4⟩ := hidx i hlt
              refine ⟨vr2, ir2, h1, h2, ?_, ?_⟩
              · rw [List.getElem?_append_left (by omega)]
                exact h3
              · rw [List.getElem?_append_left (by omega)]
                exact h4
            · subst heqi
              refine ⟨vr, ir, hv, hiv, ?_, ?_⟩
              · rw [← hl1]
                exact List.getElem?_concat_length _ _
              · rw [← hl2]
                exact List.getElem?_concat_length _ _

theorem sampleLoop_fail (t : Transport) (p : ℤ) (N i : ℕ) (hi : i < N)
    (hf : isError (t i Class.valid) = true ∨ isError (t i Class.invalid) = true) :
    ∃ e, (sampleLoop t p N).2 = some e := by
  induction N with
  | zero => omega
  | succ n ih =>
    rcases hprev : sampleLoop t p n with ⟨st, err⟩
    cases err with
    | some e => exact ⟨e, by simp [sampleLoop, hprev]⟩
    | none =>
      have hn : i = n := by
        by_contra hne
        have hlt : i < n := by omega
        obtain ⟨e, he⟩ := ih hlt
        rw [hprev] at he
        simp at he
      subst hn
      rcases hv : t i Class.valid with e | vr
      · exact ⟨e, by simp [sampleLoop, hprev, hv]⟩
      · have hinv : isError (t i Class.invalid) = true := by
          rcases hf with hf | hf
          · rw [hv] at hf
            simp [isError] at hf
          · exact hf
        rcases hiv : t i Class.invalid with e | ir
        · exact ⟨e, by simp [sampleLoop, hprev, hv, hiv]⟩
        · rw [hiv] at hinv
          simp [isError] at hinv

theorem y_axis_ok (series : List TimingRecord) (h : ∀ r ∈ series, r.TotalTime ≠ 0) :
    y_axis series = .ok (series.map fun r => r.StartTransferTime / r.TotalTime) := by
  induction series with
  | nil => rfl
  | cons r rest ih =>
    have hr : r.TotalTime ≠ 0 := h r (List.mem_cons_self r rest)
    have hrest := ih fun x hx => h x (List.mem_cons_of_mem r hx)
    simp [y_axis, hr, hrest]

theorem y_axis_eq_map (series : List TimingRecord) (ys : List ℚ)
    (h : y_axis series = .ok ys) :
    ys = series.map fun r => r.StartTransferTime / r.TotalTime := by
  induction series generalizing ys with
  | nil =>
    simp [y_axis] at h
    simp [← h]
  | cons r rest ih =>
    by_cases hr : r.TotalTime = 0
    · simp [y_axis, hr] at h
    · rcases hy : y_axis rest with e | ys2
      · simp [y_axis, hr, hy] at h
      · simp [y_axis, hr, hy] at h
        rw [← h]
        simp [ih ys2 hy]

theorem statistics_mean_ok (data : List ℚ) (h : data ≠ []) :
    statistics_mean data = .ok (data.sum / data.length) := by
  cases data with
  | nil => exact absurd rfl h
  | cons a l => rfl

theorem runMain_of_loop_err (t : Transport) (a : Args) (e : RequestError)
    (hs : (sampleLoop t a.precision a.attempts.toNat).2 = some e) :
    runMain t a = .error (RunError.request e) := by
  rcases hl : sampleLoop t a.precision a.attempts.toNat with ⟨st, err⟩
  rw [hl] at hs
  dsimp only at hs
  subst hs
  simp [runMain, hl]

theorem sampleLoop_const (vr ir : RawTiming) (p : ℤ) (t : Transport)
    (hv : ∀ i, t i Class.valid = .ok vr) (hiv : ∀ i, t i Class.invalid = .ok ir) (N : ℕ) :
    sampleLoop t p N =
      (⟨trialTrace N, List.replicate N (extract_timings vr p),
        List.replicate N (extract_timings ir p)⟩, none) := by
  induction N with
  | zero => simp [sampleLoop, trialTrace]
  | succ n ih =>
    simp [sampleLoop, ih, hv n, hiv n, trialTrace, List.range_succ,
      List.replicate_succ']

end TickTock

namespace TickTock

/-! Evaluation lemmas for the end-to-end scenario transport `t7`. -/

theorem extract_t7_valid :
    extract_timings ⟨1/100, 2/100, 3/100, 2/25, 1/10⟩ 3 =
      (⟨1/100, 2/100, 3/100, 2/25, 1/10⟩ : TimingRecord) := by
  simp only [extract_timings, TimingRecord.mk.injEq, pyRound, roundHalfEven]
  norm_num

theorem extract_t7_invalid :
    extract_timings ⟨1/100, 2/100, 3/100, 1/50, 1/10⟩ 3 =
      (⟨1/100, 2/100, 3/100, 1/50, 1/10⟩ : TimingRecord) := by
  simp only [extract_timings, TimingRecord.mk.injEq, pyRound, roundHalfEven]
  norm_num

theorem y_axis_t7_valid :
    y_axis (List.replicate 5 (⟨1/100, 2/100, 3/100, 2/25, 1/10⟩ : TimingRecord)) =
      .ok (List.replicate 5 (4/5 : ℚ)) := by
  rw [y_axis_ok _ (fun r hr => by rw [List.eq_of_mem_replicate hr]; norm_num)]
  norm_num [List.map_replicate]

theorem y_axis_t7_invalid :
    y_axis (List.replicate 5 (⟨1/100, 2/100, 3/100, 1/50, 1/10⟩ : TimingRecord)) =
      .ok (List.replicate 5 (1/5 : ℚ)) := by
  rw [y_axis_ok _ (fun r hr => by rw [List.eq_of_mem_replicate hr]; norm_num)]
  norm_num [List.map_replicate]

theorem mean_t7_valid : statistics_mean (List.replicate 5 (4/5 : ℚ)) = .ok (4/5) := by
  rw [statistics_mean_ok _ (by simp)]
  norm_num [List.sum_replicate, nsmul_eq_mul]

theorem mean_t7_invalid : statistics_mean (List.replicate 5 (1/5 : ℚ)) = .ok (1/5) := by
  rw [statistics_mean_ok _ (by simp)]
  norm_num [List.sum_replicate, nsmul_eq_mul]

/-! The claims. -/

/-- C1: a run of `N` trials that completes without a request failure produces
two class series of length exactly `N`, the records at index `i` of both
series are the rounded timings of the trial-`i` requests, and a derived
signal series (when the derivation succeeds) has exactly one scalar per
timing record at the same index. -/
theorem c1_sampling_series_shape (t : Transport) (p : ℤ) (N : ℕ)
    (h : (sampleLoop t p N).2 = none) :
    ((sampleLoop t p N).1).valid.length = N ∧
    ((sampleLoop t p N).1).invalid.length = N ∧
    (∀ i, i < N → ∃ vr ir, t i Class.valid = .ok vr ∧ t i Class.invalid = .ok ir ∧
      ((sampleLoop t p N).1).valid[i]? = some (extract_timings vr p) ∧
      ((sampleLoop t p N).1).invalid[i]? = some (extract_timings ir p)) ∧
    (∀ ys, y_axis ((sampleLoop t p N).1).valid = .ok ys →
      ys.length = N ∧ ∀ i : ℕ, ys[i]? =
        (((sampleLoop t p N).1).valid[i]?).map
          fun r : TimingRecord => r.StartTransferTime / r.TotalTime) ∧
    (∀ ys, y_axis ((sampleLoop t p N).1).invalid = .ok ys →
      ys.length = N ∧ ∀ i : ℕ, ys[i]? =
        (((sampleLoop t p N).1).invalid[i]?).map
          fun r : TimingRecord => r.StartTransferTime / r.TotalTime) := by
  obtain ⟨hl1, hl2, hev, hidx⟩ := sampleLoop_none_spec t p N h
  refine ⟨hl1, hl2, hidx, ?_, ?_⟩
  · intro ys hys
    have hm := y_axis_eq_map _ _ hys
    subst hm
    exact ⟨by simp [hl1], fun i => by simp [List.getElem?_map]⟩
  · intro ys hys
    have hm := y_axis_eq_map _ _ hys
    subst hm
    exact ⟨by simp [hl2], fun i => by simp [List.getElem?_map]⟩

/-- Witness for C1: a concrete complete two-trial run. -/
theorem c1_sampling_series_shape_witness :
    ((sampleLoop tOk 3 2).2 = none) ∧
    (((sampleLoop tOk 3 2).1).valid.length = 2 ∧
    ((sampleLoop tOk 3 2).1).invalid.length = 2 ∧
    (∀ i, i < 2 → ∃ vr ir, tOk i Class.valid = .ok vr ∧ tOk i Class.invalid = .ok ir ∧
      ((sampleLoop tOk 3 2).1).valid[i]? = some (extract_timings vr 3) ∧
      ((sampleLoop tOk 3 2).1).invalid[i]? = some (extract_timings ir 3)) ∧
    (∀ ys, y_axis ((sampleLoop tOk 3 2).1).valid = .ok ys →
      ys.length = 2 ∧ ∀ i : ℕ, ys[i]? =
        (((sampleLoop tOk 3 2).1).valid[i]?).map
          fun r : TimingRecord => r.StartTransferTime / r.TotalTime) ∧
    (∀ ys, y_axis ((sampleLoop tOk 3 2).1).invalid = .ok ys →
      ys.length = 2 ∧ ∀ i : ℕ, ys[i]? =
        (((sampleLoop tOk 3 2).1).invalid[i]?).map
          fun r : TimingRecord => r.StartTransferTime / r.TotalTime)) :=
  ⟨by decide, c1_sampling_series_shape tOk 3 2 (by decide)⟩

/-- C2: the derive step is NOT guarded against a zero `TotalTime`.  On a
series containing a record with `total = 0` the list comprehension of lines
111-112 raises an unhandled `ZeroDivisionError` instead of discarding the
record or substituting a sentinel: the whole derivation fails and no signal
series is produced.  This refutes the claim that the zero-total case is
guarded. -/
theorem c2_zero_total_raises :
    y_axis [⟨0, 0, 0, 1, 2⟩, ⟨0, 0, 0, 0, 0⟩] = .error RunError.zeroDivisionError := by
  rfl

/-- C3: on a class series all of whose records have nonzero total, the
derived signal series succeeds and equals, pointwise and in order, the
`timeToFirstByte / total` ratio of the record at the same index (hence has
the same length); and the summary of a non-empty signal series is its
arithmetic mean (sum divided by length). -/
theorem c3_derive_pointwise_and_mean (series : List TimingRecord)
    (h : ∀ r ∈ series, r.TotalTime ≠ 0) :
    y_axis series = .ok (series.map fun r => r.StartTransferTime / r.TotalTime) ∧
    (∀ ys, y_axis series = .ok ys → ys.length = series.length ∧
      ∀ i : ℕ, ys[i]? = series[i]?.map
        fun r : TimingRecord => r.StartTransferTime / r.TotalTime) ∧
    (∀ data : List ℚ, data ≠ [] → statistics_mean data = .ok (data.sum / data.length)) := by
  refine ⟨y_axis_ok series h, ?_, fun data hd => statistics_mean_ok data hd⟩
  intro ys hys
  have hm := y_axis_eq_map _ _ hys
  subst hm
  exact ⟨by simp, fun i => by simp [List.getElem?_map]⟩

/-- Witness for C3: a concrete one-record series with nonzero total. -/
theorem c3_derive_pointwise_and_mean_witness :
    (∀ r ∈ [(⟨0, 0, 0, 3, 4⟩ : TimingRecord)], r.TotalTime ≠ 0) ∧
    (y_axis [(⟨0, 0, 0, 3, 4⟩ : TimingRecord)] =
      .ok ([(⟨0, 0, 0, 3, 4⟩ : TimingRecord)].map fun r => r.StartTransferTime / r.TotalTime) ∧
    (∀ ys, y_axis [(⟨0, 0, 0, 3, 4⟩ : TimingRecord)] = .ok ys →
      ys.length = [(⟨0, 0, 0, 3, 4⟩ : TimingRecord)].length ∧
      ∀ i : ℕ, ys[i]? = [(⟨0, 0, 0, 3, 4⟩ : TimingRecord)][i]?.map
        fun r : TimingRecord => r.StartTransferTime / r.TotalTime) ∧
    (∀ data : List ℚ, data ≠ [] → statistics_mean data = .ok (data.sum / data.length))) :=
  ⟨by decide, c3_derive_pointwise_and_mean [⟨0, 0, 0, 3, 4⟩] (by decide)⟩

/-- C4: if any single request of the run fails, the whole run aborts with
that request error: `runMain` returns a request error (so no signal series
is derived and nothing is handed to the report sink, which only ever
receives the payload of an `ok` result), and the two class series held at
the abort are of equal length. -/
theorem c4_abort_on_request_failure (t : Transport) (a : Args) (i : ℕ)
    (hi : i < a.attempts.toNat)
    (hf : isError (t i Class.valid) = true ∨ isError (t i Class.invalid) = true) :
    (∃ e : RequestError, runMain t a = .error (RunError.request e)) ∧
    ((sampleLoop t a.precision a.attempts.toNat).1).valid.length =
      ((sampleLoop t a.precision a.attempts.toNat).1).invalid.length := by
  obtain ⟨e, he⟩ := sampleLoop_fail t a.precision a.attempts.toNat i hi hf
  exact ⟨⟨e, runMain_of_loop_err t a e he⟩, sampleLoop_len_eq t a.precision a.attempts.toNat⟩

/-- Witness for C4: the spec's failure scenario, a connection-refused error
on trial 3 (index 2) of 10. -/
theorem c4_abort_on_request_failure_witness :
    ((2 < ((10:ℤ)).toNat) ∧
      (isError (tErr 2 Class.valid) = true ∨ isError (tErr 2 Class.invalid) = true)) ∧
    ((∃ e : RequestError,
        runMain tErr ⟨some "t", some "v", some "i", 10, 50, 3⟩ = .error (RunError.request e)) ∧
      ((sampleLoop tErr 3 ((10:ℤ)).toNat).1).valid.length =
        ((sampleLoop tErr 3 ((10:ℤ)).toNat).1).invalid.length) :=
  ⟨⟨by decide, by decide⟩,
    c4_abort_on_request_failure tErr ⟨some "t", some "v", some "i", 10, 50, 3⟩ 2
      (by decide) (by decide)⟩

/-- C5: `attempts = 0` is NOT rejected at configuration time: `argparse`
accepts it (lines 36-39 declare no positivity check), the loop runs zero
times, and the run fails only inside `statistics.mean` with a
`StatisticsError` (line 114), for every transport.  This documents where
the code diverges from the claim that a `ConfigError` is raised before any
request. -/
theorem c5_attempts_zero_fails_at_mean (t : Transport) (tg vp ip : Option String) (d p : ℤ) :
    parse_args tg vp ip (some 0) (some d) (some p) =
      .ok { target := tg, valid_post := vp, invalid_post := ip,
            attempts := 0, time_delay := d, precision := p } ∧
    runMain t { target := tg, valid_post := vp, invalid_post := ip,
                attempts := 0, time_delay := d, precision := p } =
      .error RunError.statisticsError :=
  ⟨rfl, rfl⟩

/-- C6: with `--target`, `--valid_post` and `--invalid_post` all missing,
`argparse` does NOT fail fast with a usage error: none of the options is
declared `required` (lines 33-35), so parsing succeeds with `None` for all
three.  This documents where the code diverges from the claim. -/
theorem c6_missing_required_args_accepted :
    parse_args none none none none none none =
      .ok { target := none, valid_post := none, invalid_post := none,
            attempts := 50, time_delay := 50, precision := 3 } := rfl

/-- C7: for the deterministic mock transport of the end-to-end scenario
(5 trials, valid class with total 100ms and time to first byte 80ms,
invalid class with total 100ms and time to first byte 20ms), the run
produces two signal series of length 5, a valid-class mean of 0.8 and an
invalid-class mean of 0.2, and the logged means coincide with the means
rounded to the configured precision 3. -/
theorem c7_end_to_end :
    runMain t7 { target := some "https://target/login", valid_post := some "user=real",
                 invalid_post := some "user=fake", attempts := 5, time_delay := 50,
                 precision := 3 } =
      .ok { y_axis_valid := List.replicate 5 (4/5 : ℚ),
            y_axis_invalid := List.replicate 5 (1/5 : ℚ),
            mean_valid := 4/5, mean_invalid := 1/5, x_axis := [1, 2, 3, 4, 5] } ∧
    pyRound (4/5) 3 = 4/5 ∧ pyRound (1/5) 3 = 1/5 := by
  have hv : ∀ i, t7 i Class.valid = .ok ⟨1/100, 2/100, 3/100, 2/25, 1/10⟩ := fun _ => rfl
  have hiv : ∀ i, t7 i Class.invalid = .ok ⟨1/100, 2/100, 3/100, 1/50, 1/10⟩ := fun _ => rfl
  have hloop := sampleLoop_const _ _ 3 t7 hv hiv 5
  rw [extract_t7_valid, extract_t7_invalid] at hloop
  refine ⟨?_, by norm_num [pyRound, roundHalfEven], by norm_num [pyRound, roundHalfEven]⟩
  have h5 : (5:ℤ).toNat = 5 := rfl
  simp only [runMain, h5, hloop, y_axis_t7_valid, y_axis_t7_invalid,
    mean_t7_valid, mean_t7_invalid, bind, Except.bind]
  rfl

/-- C8: a timing record extracted from raw stage timings that are
non-negative and non-decreasing in the order dns, tcp, app, first byte,
total has, after rounding to any precision, five non-negative fields
satisfying `DNSLookup ≤ TCPConnectionTime ≤ AppConnectionTine ≤
StartTransferTime ≤ TotalTime`. -/
theorem c8_record_monotone (r : RawTiming) (p : ℤ)
    (h0 : 0 ≤ r.namelookup_time) (h1 : r.namelookup_time ≤ r.connect_time)
    (h2 : r.connect_time ≤ r.appconnect_time)
    (h3 : r.appconnect_time ≤ r.starttransfer_time)
    (h4 : r.starttransfer_time ≤ r.total_time) :
    (0 ≤ (extract_timings r p).DNSLookup ∧
     0 ≤ (extract_timings r p).TCPConnectionTime ∧
     0 ≤ (extract_timings r p).AppConnectionTine ∧
     0 ≤ (extract_timings r p).StartTransferTime ∧
     0 ≤ (extract_timings r p).TotalTime) ∧
    (extract_timings r p).DNSLookup ≤ (extract_timings r p).TCPConnectionTime ∧
    (extract_timings r p).TCPConnectionTime ≤ (extract_timings r p).AppConnectionTine ∧
    (extract_timings r p).AppConnectionTine ≤ (extract_timings r p).StartTransferTime ∧
    (extract_timings r p).StartTransferTime ≤ (extract_timings r p).TotalTime := by
  have n0 : 0 ≤ (extract_timings r p).DNSLookup := pyRound_nonneg p h0
  have m1 : (extract_timings r p).DNSLookup ≤ (extract_timings r p).TCPConnectionTime :=
    pyRound_mono p h1
  have m2 : (extract_timings r p).TCPConnectionTime ≤ (extract_timings r p).AppConnectionTine :=
    pyRound_mono p h2
  have m3 : (extract_timings r p).AppConnectionTine ≤ (extract_timings r p).StartTransferTime :=
    pyRound_mono p h3
  have m4 : (extract_timings r p).StartTransferTime ≤ (extract_timings r p).TotalTime :=
    pyRound_mono p h4
  exact ⟨⟨n0, n0.trans m1, (n0.trans m1).trans m2, ((n0.trans m1).trans m2).trans m3,
    (((n0.trans m1).trans m2).trans m3).trans m4⟩, m1, m2, m3, m4⟩

/-- Witness for C8: a concrete raw timing with increasing stages. -/
theorem c8_record_monotone_witness :
    ((0:ℚ) ≤ (1:ℚ) ∧ (1:ℚ) ≤ 2 ∧ (2:ℚ) ≤ 3 ∧ (3:ℚ) ≤ 4 ∧ (4:ℚ) ≤ 5) ∧
    ((0 ≤ (extract_timings ⟨1, 2, 3, 4, 5⟩ 3).DNSLookup ∧
      0 ≤ (extract_timings ⟨1, 2, 3, 4, 5⟩ 3).TCPConnectionTime ∧
      0 ≤ (extract_timings ⟨1, 2, 3, 4, 5⟩ 3).AppConnectionTine ∧
      0 ≤ (extract_timings ⟨1, 2, 3, 4, 5⟩ 3).StartTransferTime ∧
      0 ≤ (extract_timings ⟨1, 2, 3, 4, 5⟩ 3).TotalTime) ∧
     (extract_timings ⟨1, 2, 3, 4, 5⟩ 3).DNSLookup ≤
       (extract_timings ⟨1, 2, 3, 4, 5⟩ 3).TCPConnectionTime ∧
     (extract_timings ⟨1, 2, 3, 4, 5⟩ 3).TCPConnectionTime ≤
       (extract_timings ⟨1, 2, 3, 4, 5⟩ 3).AppConnectionTine ∧
     (extract_timings ⟨1, 2, 3, 4, 5⟩ 3).AppConnectionTine ≤
       (extract_timings ⟨1, 2, 3, 4, 5⟩ 3).StartTransferTime ∧
     (extract_timings ⟨1, 2, 3, 4, 5⟩ 3).StartTransferTime ≤
       (extract_timings ⟨1, 2, 3, 4, 5⟩ 3).TotalTime) :=
  ⟨⟨by decide, by decide, by decide, by decide, by decide⟩,
    c8_record_monotone ⟨1, 2, 3, 4, 5⟩ 3 (by decide) (by decide) (by decide) (by decide)
      (by decide)⟩

/-- C9 (amended): a completed run is strictly sequential and interleaved per
trial: its event trace is exactly, for each trial `i` in order, the valid
request, then the invalid request, then the append of the valid record,
then the append of the invalid record — so each trial's valid request
completes before its invalid request is issued, both records of a trial are
appended before the next trial begins, and the classes are never batched
separately. -/
theorem c9_trial_interleaving (t : Transport) (p : ℤ) (N : ℕ)
    (h : (sampleLoop t p N).2 = none) :
    ((sampleLoop t p N).1).events = trialTrace N :=
  (sampleLoop_none_spec t p N h).2.2.1

/-- Witness for the amended C9: a concrete complete two-trial run. -/
theorem c9_trial_interleaving_witness :
    ((sampleLoop tOk 3 2).2 = none) ∧ ((sampleLoop tOk 3 2).1).events = trialTrace 2 :=
  ⟨by decide, c9_trial_interleaving tOk 3 2 (by decide)⟩

/-- Counterexample to C9 as stated: in a completed one-trial run the valid
record's append does not precede the issuing of the trial's invalid request
— the loop body appends both records only after both requests completed
(lines 107-108 follow lines 101-103). -/
theorem c9_append_order_counterexample :
    ((sampleLoop tOk 3 1).2 = none) ∧
    ((sampleLoop tOk 3 1).1).events =
      [Event.request 0 Class.valid, Event.request 0 Class.invalid,
       Event.append 0 Class.valid, Event.append 0 Class.invalid] ∧
    ¬ eventIndex ((sampleLoop tOk 3 1).1).events (Event.append 0 Class.valid) <
        eventIndex ((sampleLoop tOk 3 1).1).events (Event.request 0 Class.invalid) := by
  decide

/-- C10: `time_delay` is parsed but never used (no sleep is modelled because
the source performs none): two runs differing only in `time_delay` produce
identical results — same class series, signal series and reported means. -/
theorem c10_time_delay_no_effect (t : Transport) (a : Args) (d1 d2 : ℤ) :
    runMain t { a with time_delay := d1 } = runMain t { a with time_delay := d2 } := rfl

end TickTock
